import Mathlib

/-!
Verification development for the Polkadot/Kusama 1KV Telegram bot.

The definitions below are a shallow embedding of the JavaScript modules
of the repository, written directly from the source:

  * src/modules/telegram-bot.js - the validator snapshot differ
    (updateValidator), the notification scheduler and flush routines
    (processNewBlockByValidator, sendPendingNotifications,
    sendPendingNotificationsForChat), the settings callback handler
    (processCallbackQuery), the conversation state machine
    (processTelegramUpdate, processAddRequest) and the per chat
    validator cap (maxValidatorsPerChat).
  * src/modules/data.js - the store operations (removeValidator,
    savePendingBlockNotification, deletePendingBlockNotificationsForChat,
    updateValidator as a field wise set, saveRankChange) and the
    ChatState and BlockNotificationPeriod enumerations.
  * src/modules/polkadot.js - isValidAddress.
  * src/modules/messaging.js - sendBlocksAuthored and sendMessage,
    abstracted through a send oracle that yields the (possibly absent)
    confirmation object of the transport.

External effects (the Telegram transport, the W3F scoring API, the
chain RPC and the MongoDB driver) are modelled as explicit parameters:
a send oracle of type PendingNotification to Option Unit, a decode
oracle for addresses, boolean flags for database write success, and a
fetched candidate record standing for the JSON returned by the scoring
API merged with the chain reads, exactly as built in
Data.fetchValidator.
-/

namespace OneKV

/-- One entry of the validity list returned by the W3F API
(the invalidity array renamed to validityItems in Data.fetchValidator). -/
structure ValidityItem where
  valid : Bool
  details : String
deriving DecidableEq

/-- The freshly fetched truth about one validator: the JSON of
GET w3fBaseURL/candidate/stash merged with the on chain reads, exactly
the w3fValidator object built in Data.fetchValidator (data.js lines
179-207): isValid is the conjunction of the validity items, and
isActiveInSet, commission, sessionKeys and controllerAddress come from
the chain. -/
structure OneKVCandidate where
  name : String
  controllerAddress : String
  rank : Int
  isValid : Bool
  validityItems : List ValidityItem
  invalidityReasons : String
  onlineSince : Int
  offlineSince : Int
  offlineAccumulated : Int
  isActiveInSet : Bool
  commission : String
  sessionKeys : String
  location : String
  version : String
deriving DecidableEq

/-- A persisted validator document (collection keyed by stashAddress),
as created by Data.persistValidator: the candidate fields plus the
stash address and the subscribing chat ids. -/
structure Validator extends OneKVCandidate where
  stashAddress : String
  chatIds : List Int
deriving DecidableEq

/-- A pending block notification document, keyed by the composite
(chatId, stashAddress) pair, holding the queued block numbers. -/
structure PendingNotification where
  chatId : Int
  stashAddress : String
  blockNumbers : List Int
deriving DecidableEq

/-- The conversation states of a chat (data.js ChatState). -/
inductive ChatState where
  | IDLE
  | ADD
  | REMOVE
  | VALIDATOR_INFO
  | STAKING_INFO_LOADING
  | STAKING_INFO_SELECT_VALIDATOR
  | REWARDS_ENTER_ADDRESS
deriving DecidableEq

/-- Block notification periods in minutes (data.js
BlockNotificationPeriod): OFF is the sentinel -1, IMMEDIATE is 0,
HOURLY is 60, HALF_ERA is eraLengthMins / 2 and ERA_END is
eraLengthMins, the latter two depending on the network configuration
and therefore passed around as values of type Int. -/
def PeriodOFF : Int := -1

/-- The IMMEDIATE block notification period (0 minutes). -/
def PeriodIMMEDIATE : Int := 0

/-- The HOURLY block notification period (60 minutes). -/
def PeriodHOURLY : Int := 60

/-- A chat document (created by Data.createChat, mutated by the setChat
functions of data.js). -/
structure Chat where
  chatId : Int
  state : ChatState
  blockNotificationPeriod : Int
  unclaimedPayoutNotificationPeriod : Int
  sendNewNominationNotifications : Bool
  sendChillingEventNotifications : Bool
  sendOfflineEventNotifications : Bool
  lastSettingsMessageId : Int
  lastSettingsCommandMessageId : Int
deriving DecidableEq

/-- The message components pushed into messageComponents by
updateValidator (telegram-bot.js lines 958-1103, the current revision
of the differ). Each constructor corresponds to one push site; the
rendered Telegram markdown text is noted next to it. -/
inductive MsgComponent where
  /-- Push site: has a new name (the name comparison). -/
  | newName (n : String)
  /-- Push site: has a new controller (the controller comparison, taken
  only when a previous controller address was stored). -/
  | newController (a : String)
  /-- Push site: the chart up emoji followed by rank has increased from
  o to n, taken when the stored rank is numerically smaller than the
  fetched rank. -/
  | rankUp (o n : Int)
  /-- Push site: the chart down emoji followed by rank has decreased
  from o to n, taken when the stored rank is numerically greater than
  the fetched rank. -/
  | rankDown (o n : Int)
  /-- Push site: is now a valid 1KV validator. -/
  | becameValid
  /-- Push site: has become an invalid 1KV validator. -/
  | becameInvalid
  /-- Push site: one line per failing validity item. -/
  | invalidityDetail (d : String)
  /-- Push site: went offline on a formatted date. -/
  | wentOffline (t : Int)
  /-- Push site: came back online on a formatted date. -/
  | cameOnline (t : Int)
  /-- Push site: is now an active validator. -/
  | enteredActiveSet
  /-- Push site: the total active stake line accompanying
  enteredActiveSet, its amount fetched from the chain. -/
  | totalActiveStake
  /-- Push site: is not anymore an active validator. -/
  | leftActiveSet
  /-- Push site: new commission rate. -/
  | newCommission (c : String)
  /-- Push site: has new session keys. -/
  | newSessionKeys (k : String)
  /-- Push site: is now located in a location. -/
  | newLocation (l : String)
deriving DecidableEq

/-- The ordered list of message components produced by one run of
updateValidator comparing the stored validator v against the fetched
candidate w (telegram-bot.js lines 969-1077). The version comparison
updates the stored version silently: its push site is commented out in
the source, so it contributes no component. -/
def messageComponents (v : Validator) (w : OneKVCandidate) : List MsgComponent :=
  (if v.name ≠ w.name then [MsgComponent.newName w.name] else [])
  ++ (if v.controllerAddress = "" then []
      else if v.controllerAddress ≠ w.controllerAddress then
        [MsgComponent.newController w.controllerAddress]
      else [])
  ++ (if v.rank < w.rank then [MsgComponent.rankUp v.rank w.rank]
      else if v.rank > w.rank then [MsgComponent.rankDown v.rank w.rank]
      else [])
  ++ (if !v.isValid && w.isValid then [MsgComponent.becameValid]
      else if v.isValid && !w.isValid then
        MsgComponent.becameInvalid ::
          (w.validityItems.filter (fun i => !i.valid)).map
            (fun i => MsgComponent.invalidityDetail i.details)
      else [])
  ++ (if v.offlineSince = 0 ∧ w.offlineSince > 0 then
        [MsgComponent.wentOffline w.offlineSince]
      else if v.offlineSince > 0 ∧ w.offlineSince = 0 then
        [MsgComponent.cameOnline w.onlineSince]
      else [])
  ++ (if v.isActiveInSet ≠ w.isActiveInSet then
        if w.isActiveInSet then
          [MsgComponent.enteredActiveSet, MsgComponent.totalActiveStake]
        else [MsgComponent.leftActiveSet]
      else [])
  ++ (if v.commission ≠ w.commission then [MsgComponent.newCommission w.commission]
      else [])
  ++ (if v.sessionKeys ≠ w.sessionKeys then [MsgComponent.newSessionKeys w.sessionKeys]
      else [])
  ++ (if v.location ≠ w.location then [MsgComponent.newLocation w.location]
      else [])

/-- The ranks appended to the rank history collection during one run of
updateValidator: Data.saveRankChange is called from either rank branch,
and once more as a seed when no history record exists yet for the stash
(telegram-bot.js lines 982-996, with rankHistoryCount the value
returned by Data.getRankHistoryCount). -/
def rankSaves (v : Validator) (w : OneKVCandidate) (rankHistoryCount : Nat) : List Int :=
  (if v.rank < w.rank then [w.rank]
   else if v.rank > w.rank then [w.rank]
   else [])
  ++ (if rankHistoryCount = 0 then [w.rank] else [])

/-- True when updateValidator runs the forced flush in the validity
branch: the stored validator was valid and the fetched one is not
(telegram-bot.js lines 1003-1007). -/
def invalidityFlushTriggered (v : Validator) (w : OneKVCandidate) : Bool :=
  v.isValid && !w.isValid

/-- True when updateValidator runs the forced flush in the offline
branch: the stored offlineSince is zero (online) and the fetched
offlineSince is positive (telegram-bot.js lines 1025-1029). -/
def offlineFlushTriggered (v : Validator) (w : OneKVCandidate) : Bool :=
  (v.offlineSince == 0) && (w.offlineSince > 0)

/-- True when updateValidator runs the forced flush in the active set
branch: the flag changed and the fetched value is false, that is the
validator left the active set (telegram-bot.js lines 1042-1056; the
flush sits only in the else arm of the inner conditional, so entering
the active set does not flush). -/
def leftActiveFlushTriggered (v : Validator) (w : OneKVCandidate) : Bool :=
  (v.isActiveInSet != w.isActiveInSet) && !w.isActiveInSet

/-- The validator document after Data.updateValidator applied the
updates object collected by the differ as a field wise set
(telegram-bot.js lines 968-1083 collecting updates, data.js lines
209-216 applying them). Fields touched by no branch keep their stored
value; in particular the online and offline timestamps are only
rewritten when one of the two transitions fired. A falsy (empty)
controller address is first seen and updated silently. -/
def persistedValidator (v : Validator) (w : OneKVCandidate) : Validator :=
  { v with
    name := if v.name ≠ w.name then w.name else v.name
    controllerAddress :=
      if v.controllerAddress = "" then w.controllerAddress
      else if v.controllerAddress ≠ w.controllerAddress then w.controllerAddress
      else v.controllerAddress
    rank :=
      if v.rank < w.rank then w.rank
      else if v.rank > w.rank then w.rank
      else v.rank
    isValid :=
      if !v.isValid && w.isValid then w.isValid
      else if v.isValid && !w.isValid then w.isValid
      else v.isValid
    validityItems :=
      if !v.isValid && w.isValid then w.validityItems
      else if v.isValid && !w.isValid then w.validityItems
      else v.validityItems
    invalidityReasons :=
      if !v.isValid && w.isValid then w.invalidityReasons
      else if v.isValid && !w.isValid then w.invalidityReasons
      else if v.invalidityReasons ≠ w.invalidityReasons then w.invalidityReasons
      else v.invalidityReasons
    onlineSince :=
      if v.offlineSince = 0 ∧ w.offlineSince > 0 then w.onlineSince
      else if v.offlineSince > 0 ∧ w.offlineSince = 0 then w.onlineSince
      else v.onlineSince
    offlineSince :=
      if v.offlineSince = 0 ∧ w.offlineSince > 0 then w.offlineSince
      else if v.offlineSince > 0 ∧ w.offlineSince = 0 then w.offlineSince
      else v.offlineSince
    offlineAccumulated :=
      if v.offlineSince = 0 ∧ w.offlineSince > 0 then w.offlineAccumulated
      else if v.offlineSince > 0 ∧ w.offlineSince = 0 then w.offlineAccumulated
      else v.offlineAccumulated
    isActiveInSet :=
      if v.isActiveInSet ≠ w.isActiveInSet then w.isActiveInSet else v.isActiveInSet
    commission :=
      if v.commission ≠ w.commission then w.commission else v.commission
    sessionKeys :=
      if v.sessionKeys ≠ w.sessionKeys then w.sessionKeys else v.sessionKeys
    location :=
      if v.location ≠ w.location then w.location else v.location
    version :=
      if v.version ≠ w.version then w.version else v.version }

/-- The JavaScript loose comparison of a number array against the
number 0, as performed by the early return of
Messaging.sendBlocksAuthored (messaging.js line 266, blockNumbers == 0
with loose equality): an empty array coerces to the empty string and
then to 0, and a one element array coerces to the string of its
element, so the comparison holds exactly for the empty list and the
singleton zero list. -/
def jsArrayLooseEqZero (l : List Int) : Bool :=
  l == [] || l == [0]

/-- The confirmation returned by Messaging.sendBlocksAuthored
(messaging.js lines 264-279) for one pending notification, with the
transport abstracted as a send oracle: none models the undefined or
null return (early return on a loosely zero block list, an HTTP error,
a JSON parse failure, or the bot blocked path of sendMessage), some
models the returned Telegram message object. -/
def sendBlocksAuthoredResult (send : PendingNotification → Option Unit)
    (n : PendingNotification) : Option Unit :=
  if jsArrayLooseEqZero n.blockNumbers then none else send n

/-- Data.getValidatorByStashAddress: findOne on the validator
collection keyed by stash address. -/
def findValidator (validators : List Validator) (stash : String) : Option Validator :=
  validators.find? (fun v => v.stashAddress == stash)

/-- Data.getChatById: findOne on the chat collection keyed by chat
id. -/
def findChat (chats : List Chat) (chatId : Int) : Option Chat :=
  chats.find? (fun c => c.chatId == chatId)

/-- True when the flush loop body of sendPendingNotifications or
sendPendingNotificationsForChat (telegram-bot.js lines 1129-1161)
deletes the pending notification n: the stash must resolve to a stored
validator and the send must return a non null confirmation. -/
def notificationDelivered (validators : List Validator)
    (send : PendingNotification → Option Unit) (n : PendingNotification) : Bool :=
  match findValidator validators n.stashAddress with
  | some _ => (sendBlocksAuthoredResult send n).isSome
  | none => false

/-- The pending notification collection after
sendPendingNotificationsForChat chatId ran (telegram-bot.js lines
1146-1161): every notification of that chat whose send was confirmed
is deleted by Data.deletePendingBlockNotification, the rest of the
collection is untouched. -/
def sendPendingNotificationsForChat (validators : List Validator)
    (send : PendingNotification → Option Unit)
    (pending : List PendingNotification) (chatId : Int) : List PendingNotification :=
  pending.filter (fun n => !(n.chatId == chatId && notificationDelivered validators send n))

/-- The pending notification collection after the periodic flush
sendPendingNotifications notificationPeriod ran (telegram-bot.js lines
1129-1144 together with Data.getPendingBlockNotifications, data.js
lines 349-365): the records selected are those whose chat has exactly
the given block notification period, and of those the delivered ones
are deleted. -/
def sendPendingNotificationsPeriodic (chats : List Chat) (validators : List Validator)
    (send : PendingNotification → Option Unit) (period : Int)
    (pending : List PendingNotification) : List PendingNotification :=
  pending.filter (fun n =>
    !((match findChat chats n.chatId with
       | some c => c.blockNotificationPeriod == period
       | none => false)
      && notificationDelivered validators send n))

/-- The forced flush loop of updateValidator: for each subscribing chat
id, sendPendingNotificationsForChat is invoked on the current pending
collection (telegram-bot.js lines 1004-1007, 1026-1029 and
1051-1054). -/
def flushChatsPending (validators : List Validator)
    (send : PendingNotification → Option Unit) (chatIds : List Int)
    (pending : List PendingNotification) : List PendingNotification :=
  chatIds.foldl (fun p c => sendPendingNotificationsForChat validators send p c) pending

/-- The pending notification collection at the end of one
updateValidator cycle for the stored validator v against the fetched
candidate w: the three forced flush sites run in source order
(validity, then offline, then active set), each flushing all
subscribing chats of v when its trigger fired. -/
def updatePendingAfterDiff (validators : List Validator)
    (send : PendingNotification → Option Unit) (v : Validator) (w : OneKVCandidate)
    (pending : List PendingNotification) : List PendingNotification :=
  let p1 := if invalidityFlushTriggered v w then
              flushChatsPending validators send v.chatIds pending
            else pending
  let p2 := if offlineFlushTriggered v w then
              flushChatsPending validators send v.chatIds p1
            else p1
  if leftActiveFlushTriggered v w then
    flushChatsPending validators send v.chatIds p2
  else p2

/-- Data.savePendingBlockNotification (data.js lines 319-347): when a
record for the (chat, stash) pair exists, the block number is appended
to its list unless already present; otherwise a new record with the
singleton list is inserted. -/
def savePendingBlockNotification (pending : List PendingNotification)
    (chatId : Int) (stash : String) (blockNumber : Int) : List PendingNotification :=
  match pending.find? (fun n => n.chatId == chatId && n.stashAddress == stash) with
  | some _ =>
    pending.map (fun n =>
      if n.chatId == chatId && n.stashAddress == stash then
        { n with blockNumbers :=
            if blockNumber ∈ n.blockNumbers then n.blockNumbers
            else n.blockNumbers ++ [blockNumber] }
      else n)
  | none => pending ++ [⟨chatId, stash, [blockNumber]⟩]

/-- One iteration of the chat loop of processNewBlockByValidator
(telegram-bot.js lines 1200-1216): resolve the chat document; an
IMMEDIATE period sends right away (no pending record), an OFF period
does nothing, and any other period saves a pending block
notification. -/
def blockNotificationStep (chats : List Chat) (blockNumber : Int) (stash : String)
    (p : List PendingNotification) (cid : Int) : List PendingNotification :=
  match findChat chats cid with
  | none => p
  | some chat =>
    if chat.blockNotificationPeriod == PeriodIMMEDIATE then p
    else if chat.blockNotificationPeriod != PeriodOFF then
      savePendingBlockNotification p chat.chatId stash blockNumber
    else p

/-- The effect of processNewBlockByValidator (telegram-bot.js lines
1199-1217) on the pending notification collection: the chat loop runs
once for each chat id of the authoring validator. -/
def processNewBlockByValidator (chats : List Chat) (blockNumber : Int)
    (validator : Validator)
    (pending : List PendingNotification) : List PendingNotification :=
  validator.chatIds.foldl
    (blockNotificationStep chats blockNumber validator.stashAddress) pending

/-- Data.deletePendingBlockNotificationsForChat (data.js lines
372-376): deleteMany on the pending notification collection keyed by
the chat id. -/
def deletePendingBlockNotificationsForChat (pending : List PendingNotification)
    (chatId : Int) : List PendingNotification :=
  pending.filter (fun n => !(n.chatId == chatId))

/-- The per chat validator cap (telegram-bot.js line 16 and line
660). -/
def maxValidatorsPerChat : Nat := 20

/-- Data.getValidatorsForChat (data.js lines 309-312): the validators
whose chatIds array contains the chat id. -/
def validatorsForChat (validators : List Validator) (chatId : Int) : List Validator :=
  validators.filter (fun v => v.chatIds.contains chatId)

/-- The chat id list after the splice in Data.removeValidator (data.js
lines 267-271): indexOf finds the first occurrence and splice removes
exactly that one when present. -/
def removeChatId (chatIds : List Int) (chatId : Int) : List Int :=
  chatIds.erase chatId

/-- The validator collection after Data.removeValidator (data.js lines
265-284): the chat id is spliced out of the chatIds of the given
validator; when the remaining list is empty the whole document is
deleted (deleteOne keyed by stash address), otherwise the document is
updated with the shrunk list. -/
def removeValidatorStore (validators : List Validator) (v : Validator)
    (chatId : Int) : List Validator :=
  let chatIds := removeChatId v.chatIds chatId
  if chatIds = [] then
    validators.filter (fun x => !(x.stashAddress == v.stashAddress))
  else
    validators.map (fun x =>
      if x.stashAddress == v.stashAddress then { x with chatIds := chatIds } else x)

/-- The chat id list built by processAddRequest for an existing
validator not yet watched by the chat (telegram-bot.js lines 893-898):
a push when the id is absent. The already added case returns before
this point and leaves the list untouched; the defensive arm resetting
a missing chatIds array to a singleton is unreachable here because a
stored document always carries the field. -/
def addChatId (chatIds : List Int) (chatId : Int) : List Int :=
  if chatIds.contains chatId then chatIds else chatIds ++ [chatId]

/-- Data.updateValidatorChatIds (data.js lines 301-307): updateOne
keyed by stash address setting the chatIds field. -/
def updateValidatorChatIdsStore (validators : List Validator) (stash : String)
    (chatIds : List Int) : List Validator :=
  validators.map (fun x =>
    if x.stashAddress == stash then { x with chatIds := chatIds } else x)

/-- The four terminal outcomes of processAddRequest together with the
three outcomes of the inner fetchAndPersistValidatorInfo
(telegram-bot.js lines 883-911 and 664-680). -/
inductive AddOutcome where
  /-- The candidate string failed isValidAddress. -/
  | invalidAddress
  /-- The validator exists and its chatIds already contains the chat. -/
  | alreadyAdded
  /-- The validator exists and the chat id was pushed onto its
  chatIds. -/
  | addedToExisting
  /-- No stored validator: the W3F fetch returned 200 and
  Data.persistValidator inserted a fresh document. -/
  | fetchPersisted
  /-- No stored validator: the W3F fetch returned 204 or 404 and only a
  not found message was sent. -/
  | fetchNotFound
  /-- No stored validator: the W3F fetch returned another status and
  fetchAndPersistValidatorInfo did nothing at all. -/
  | fetchSkipped
  /-- No stored validator: an exception was thrown and the catch arm
  ran. -/
  | fetchFailed
deriving DecidableEq

/-- The result of the W3F candidate fetch for a stash with no stored
document, as consumed by fetchAndPersistValidatorInfo: ok carries the
merged candidate object of Data.fetchValidator. -/
inductive FetchResult where
  | ok (c : OneKVCandidate)
  | notFound
  | skipped
  | failed
deriving DecidableEq

/-- The combined effect of one processAddRequest call: the outcome, the
validator collection afterwards, and the setChatState call it
performed, if any (none means the conversation state was left
untouched). -/
structure AddResult where
  outcome : AddOutcome
  validators : List Validator
  stateSet : Option ChatState
deriving DecidableEq

/-- processAddRequest (telegram-bot.js lines 883-911, identical to the
earlier revision at lines 294-322): reject an invalid address; report
an already watching chat; push the chat onto an existing validator and
go IDLE; otherwise fetch, and on 200 persist a fresh document with the
singleton chat list and go IDLE, on 204 or 404 only report not found,
on any other status do nothing, and on an exception go IDLE
(fetchAndPersistValidatorInfo lines 664-680). -/
def processAddRequest (validAddr : String → Bool) (fetch : String → FetchResult)
    (validators : List Validator) (stash : String) (chatId : Int) : AddResult :=
  if !validAddr stash then ⟨AddOutcome.invalidAddress, validators, none⟩
  else
    match findValidator validators stash with
    | some v =>
      if v.chatIds.contains chatId then ⟨AddOutcome.alreadyAdded, validators, none⟩
      else
        ⟨AddOutcome.addedToExisting,
          updateValidatorChatIdsStore validators stash (addChatId v.chatIds chatId),
          some ChatState.IDLE⟩
    | none =>
      match fetch stash with
      | FetchResult.ok c =>
        ⟨AddOutcome.fetchPersisted,
          validators ++ [{ toOneKVCandidate := c, stashAddress := stash, chatIds := [chatId] }],
          some ChatState.IDLE⟩
      | FetchResult.notFound => ⟨AddOutcome.fetchNotFound, validators, none⟩
      | FetchResult.skipped => ⟨AddOutcome.fetchSkipped, validators, none⟩
      | FetchResult.failed => ⟨AddOutcome.fetchFailed, validators, some ChatState.IDLE⟩

/-- The outcomes of the slash add command dispatch. -/
inductive AddCommandOutcome where
  /-- The chat already watches maxValidatorsPerChat validators: the cap
  message is sent and the state goes IDLE. -/
  | promptRejectedMax
  /-- The chat is below the cap: the enter your stash prompt is sent
  and the state goes ADD. -/
  | promptForAddress
  /-- The second token was a valid address and processAddRequest ran
  with the given result. -/
  | direct (r : AddResult)
  /-- None of the arms matched: unrecognized command. -/
  | unrecognized
deriving DecidableEq

/-- The slash add arm of processTelegramUpdate (telegram-bot.js lines
153-173 of the earlier full dispatcher revision): a bare slash add or
an invalid second token goes through the cap check and either rejects
or prompts; a valid second token sets the state to ADD and calls
processAddRequest directly, without any cap check. -/
def handleAddCommand (validAddr : String → Bool) (fetch : String → FetchResult)
    (validators : List Validator) (chatId : Int) (tokens : List String) :
    AddCommandOutcome × List Validator × Option ChatState :=
  if (tokens.length = 1 ∧ tokens.headD "" = "/add")
      ∨ (tokens.length > 1 ∧ !validAddr (tokens.getD 1 "")) then
    if (validatorsForChat validators chatId).length ≥ maxValidatorsPerChat then
      (AddCommandOutcome.promptRejectedMax, validators, some ChatState.IDLE)
    else
      (AddCommandOutcome.promptForAddress, validators, some ChatState.ADD)
  else if tokens.length > 1 ∧ validAddr (tokens.getD 1 "") then
    let r := processAddRequest validAddr fetch validators (tokens.getD 1 "") chatId
    (AddCommandOutcome.direct r, r.validators, some (r.stateSet.getD ChatState.ADD))
  else
    (AddCommandOutcome.unrecognized, validators, none)

/-- The conversation state stored for the chat after the free text arm
of processTelegramUpdate handled one non command message (telegram-bot.js
lines 240-292 of the earlier full dispatcher revision): the ADD state
ends wherever processAddRequest left it (it only sets IDLE on a
successful add or an unexpected fetch error); REMOVE, VALIDATOR_INFO
and STAKING_INFO_SELECT_VALIDATOR always set IDLE at the end of their
case arm; IDLE stays IDLE (unrecognized command reply); any other
state falls to the default arm which logs and does not advance. -/
def dispatchFreeText (validAddr : String → Bool) (fetch : String → FetchResult)
    (validators : List Validator) (chatId : Int) (text : String)
    (state : ChatState) : ChatState :=
  match state with
  | ChatState.ADD =>
    ((processAddRequest validAddr fetch validators text chatId).stateSet).getD ChatState.ADD
  | ChatState.REMOVE => ChatState.IDLE
  | ChatState.VALIDATOR_INFO => ChatState.IDLE
  | ChatState.STAKING_INFO_SELECT_VALIDATOR => ChatState.IDLE
  | s => s

/-- The two supported network profiles (config.js: one of the two
network configurations is selected by the CLI argument). -/
inductive Network where
  | polkadot
  | kusama
deriving DecidableEq

/-- The base58 capitals accepted as the first character of a Kusama
address by isValidAddress (polkadot.js line 28). -/
def kusamaFirstChars : List Char := "ABCDEFGHJKLMNPQRSTUVWXYZ".toList

/-- Polkadot.isValidAddress (polkadot.js lines 16-36): the candidate is
first decoded (the decode functions of the external keyring library,
modelled by the decodeOk oracle; any exception yields false through the
catch arm); then the first character must be the digit one on Polkadot,
or one of the base58 capitals on Kusama. The charAt of an empty string
is the empty string in JavaScript, which differs from the digit one and
has index zero in the capitals string, reflected in the none arms. -/
def isValidAddress (decodeOk : String → Bool) (network : Network)
    (address : String) : Bool :=
  if decodeOk address then
    match network with
    | Network.polkadot =>
      match address.toList.head? with
      | some c => if c ≠ '1' then false else true
      | none => false
    | Network.kusama =>
      match address.toList.head? with
      | some c => if !(kusamaFirstChars.contains c) then false else true
      | none => true
  else false

/-- The JSON payload of a settings callback query after JSON.parse
succeeded (telegram-bot.js lines 705-712): each optional key models the
typeof undefined checks of the handler, and the two booleans model the
truthiness tests on closeSettings and backToSettingsMenu. -/
structure CallbackData where
  closeSettings : Bool
  backToSettingsMenu : Bool
  goToSubMenu : Option String
  sendNewNominationNotifications : Option Bool
  sendChillingEventNotifications : Option Bool
  sendOfflineEventNotifications : Option Bool
  blockNotificationPeriod : Option Int
  unclaimedPayoutNotificationPeriod : Option Int
deriving DecidableEq

/-- An inbound callback query that passed the early guards (it has a
message, a chat and JSON data): the id of the message its inline
keyboard belongs to, and the parsed data. -/
structure CallbackQuery where
  messageId : Int
  data : CallbackData
deriving DecidableEq

/-- The possible answerCallbackQuery responses of the handler. -/
inductive CallbackAnswer where
  /-- Answered with the invalid query text (stale settings
  message). -/
  | invalidQuery
  /-- Answered with the invalid data text (unknown period value). -/
  | invalidData
  /-- Answered plainly (acknowledged). -/
  | plain
  /-- Answered with the error while updating settings text. -/
  | settingsError
  /-- No key matched: the handler fell through without answering. -/
  | fallthrough
deriving DecidableEq

/-- The combined effect of one processCallbackQuery call on the chat
document and the pending notification collection, together with the
answer sent. -/
structure CallbackEffect where
  chat : Chat
  pending : List PendingNotification
  answer : CallbackAnswer
deriving DecidableEq

/-- The block notification period whitelist of the handler
(telegram-bot.js lines 800-804): OFF, IMMEDIATE, HOURLY, HALF_ERA and
ERA_END, the latter two computed from the configured era length. -/
def validBlockPeriod (eraLengthMins : Int) (p : Int) : Bool :=
  p == PeriodOFF || p == PeriodIMMEDIATE || p == PeriodHOURLY
    || p == eraLengthMins / 2 || p == eraLengthMins

/-- The unclaimed payout period whitelist of the handler
(telegram-bot.js lines 831-834): OFF, EVERY_ERA, TWO_ERAS and
FOUR_ERAS. -/
def validUnclaimedPeriod (p : Int) : Bool :=
  p == -1 || p == 1 || p == 2 || p == 4

/-- processCallbackQuery (telegram-bot.js lines 687-854 of the current
revision; the earlier revision at lines 41-106 carries the same stale
message guard): a query whose message id differs from the stored last
settings message id is answered invalid and nothing is touched;
otherwise the keys of the payload are tried in source order, the first
defined one acting. Database write success is modelled by the dbOk
flag, and the pending flush and delete of the block period arm reuse
the flush and delete functions above. -/
def processCallbackQuery (eraLengthMins : Int) (dbOk : Bool)
    (validators : List Validator) (send : PendingNotification → Option Unit)
    (q : CallbackQuery) (chat : Chat)
    (pending : List PendingNotification) : CallbackEffect :=
  if q.messageId ≠ chat.lastSettingsMessageId then
    ⟨chat, pending, CallbackAnswer.invalidQuery⟩
  else if q.data.closeSettings then ⟨chat, pending, CallbackAnswer.plain⟩
  else if q.data.backToSettingsMenu then ⟨chat, pending, CallbackAnswer.plain⟩
  else if q.data.goToSubMenu == some "blockAuthorshipNotificationSettings" then
    ⟨chat, pending, CallbackAnswer.plain⟩
  else if q.data.goToSubMenu == some "unclaimedPayoutNotificationSettings" then
    ⟨chat, pending, CallbackAnswer.plain⟩
  else
    match q.data.sendNewNominationNotifications,
          q.data.sendChillingEventNotifications,
          q.data.sendOfflineEventNotifications,
          q.data.blockNotificationPeriod,
          q.data.unclaimedPayoutNotificationPeriod with
    | some b, _, _, _, _ =>
      if dbOk then
        ⟨{ chat with sendNewNominationNotifications := b }, pending, CallbackAnswer.plain⟩
      else ⟨chat, pending, CallbackAnswer.settingsError⟩
    | none, some b, _, _, _ =>
      if dbOk then
        ⟨{ chat with sendChillingEventNotifications := b }, pending, CallbackAnswer.plain⟩
      else ⟨chat, pending, CallbackAnswer.settingsError⟩
    | none, none, some b, _, _ =>
      if dbOk then
        ⟨{ chat with sendOfflineEventNotifications := b }, pending, CallbackAnswer.plain⟩
      else ⟨chat, pending, CallbackAnswer.settingsError⟩
    | none, none, none, some p, _ =>
      if validBlockPeriod eraLengthMins p then
        if dbOk then
          ⟨{ chat with blockNotificationPeriod := p },
            (if p == PeriodIMMEDIATE then
              sendPendingNotificationsForChat validators send pending chat.chatId
            else if p == PeriodOFF then
              deletePendingBlockNotificationsForChat pending chat.chatId
            else pending),
            CallbackAnswer.plain⟩
        else ⟨chat, pending, CallbackAnswer.settingsError⟩
      else ⟨chat, pending, CallbackAnswer.invalidData⟩
    | none, none, none, none, some p =>
      if validUnclaimedPeriod p then
        if dbOk then
          ⟨{ chat with unclaimedPayoutNotificationPeriod := p }, pending,
            CallbackAnswer.plain⟩
        else ⟨chat, pending, CallbackAnswer.settingsError⟩
      else ⟨chat, pending, CallbackAnswer.invalidData⟩
    | none, none, none, none, none => ⟨chat, pending, CallbackAnswer.fallthrough⟩

section SampleData

/-- A sample fetched candidate used by the concrete witnesses and
counterexamples below. -/
def sampleCandidate : OneKVCandidate :=
  { name := "Val One", controllerAddress := "CTRL", rank := 5, isValid := true,
    validityItems := [], invalidityReasons := "", onlineSince := 1, offlineSince := 0,
    offlineAccumulated := 0, isActiveInSet := true, commission := "3 percent",
    sessionKeys := "KEYS", location := "Europe", version := "v2" }

/-- A sample stored validator watched by chat 100. -/
def sampleValidator : Validator :=
  { toOneKVCandidate := sampleCandidate, stashAddress := "S1", chatIds := [100] }

/-- A sample chat document. -/
def sampleChat : Chat :=
  { chatId := 100, state := ChatState.IDLE, blockNotificationPeriod := PeriodHOURLY,
    unclaimedPayoutNotificationPeriod := 1, sendNewNominationNotifications := true,
    sendChillingEventNotifications := true, sendOfflineEventNotifications := true,
    lastSettingsMessageId := 41, lastSettingsCommandMessageId := 40 }

/-- A sample parsed callback payload carrying a block notification
period. -/
def samplePeriodData : CallbackData :=
  { closeSettings := false, backToSettingsMenu := false, goToSubMenu := none,
    sendNewNominationNotifications := none, sendChillingEventNotifications := none,
    sendOfflineEventNotifications := none, blockNotificationPeriod := some PeriodOFF,
    unclaimedPayoutNotificationPeriod := none }

/-- A sample pending block notification of chat 100 for the sample
validator. -/
def samplePending : PendingNotification :=
  { chatId := 100, stashAddress := "S1", blockNumbers := [10, 11] }

end SampleData

/-- C10: processCallbackQuery answers a stale settings callback query
(its message id differs from the stored last settings message id) as
invalid and leaves the chat document and the pending notification
collection completely untouched: no preference field is mutated. -/
theorem callbackStaleFrame (eraLengthMins : Int) (dbOk : Bool)
    (validators : List Validator) (send : PendingNotification → Option Unit)
    (q : CallbackQuery) (chat : Chat) (pending : List PendingNotification)
    (h : q.messageId ≠ chat.lastSettingsMessageId) :
    processCallbackQuery eraLengthMins dbOk validators send q chat pending =
      ⟨chat, pending, CallbackAnswer.invalidQuery⟩ := by
  simp [processCallbackQuery, h]

/-- Witness for C10 at a concrete stale query. -/
theorem callbackStaleFrame_witness :
    processCallbackQuery 360 true [] (fun _ => none)
        ⟨99, samplePeriodData⟩ sampleChat [samplePending] =
      ⟨sampleChat, [samplePending], CallbackAnswer.invalidQuery⟩ :=
  callbackStaleFrame 360 true [] (fun _ => none) ⟨99, samplePeriodData⟩ sampleChat
    [samplePending] (by decide)

/-- Every capital accepted as a Kusama first character differs from the
digit one. -/
theorem kusamaFirstChars_ne_one : ∀ c ∈ kusamaFirstChars, c ≠ '1' := by decide

/-- C6: isValidAddress is total (a Lean function) and returns false
whenever the decode oracle rejects the candidate (the catch arm of
polkadot.js lines 33-35); for a decodable address whose first character
is the digit one (the Polkadot prefix) it returns true on Polkadot and
false on Kusama, and for one whose first character is a base58 capital
(the Kusama prefix class) it returns true on Kusama and false on
Polkadot. -/
theorem isValidAddressSpec (decodeOk : String → Bool) (n : Network)
    (b a : String) (c : Char)
    (hb : decodeOk b = false)
    (hd : decodeOk a = true) (hc : a.toList.head? = some c) :
    isValidAddress decodeOk n b = false
    ∧ (c = '1' →
        isValidAddress decodeOk Network.polkadot a = true
        ∧ isValidAddress decodeOk Network.kusama a = false)
    ∧ (c ∈ kusamaFirstChars →
        isValidAddress decodeOk Network.kusama a = true
        ∧ isValidAddress decodeOk Network.polkadot a = false) := by
  have hc2 : a.data.head? = some c := hc
  refine ⟨?_, ?_, ?_⟩
  · cases n <;> simp [isValidAddress, hb]
  · intro h1
    subst h1
    constructor
    · simp [isValidAddress, hd, hc2]
    · simp [isValidAddress, hd, hc2]
      decide
  · intro hmem
    have hne : c ≠ '1' := kusamaFirstChars_ne_one c hmem
    constructor
    · simp [isValidAddress, hd, hc2, hmem]
    · simp [isValidAddress, hd, hc2, hne]

/-- Witness for C6: the sample Polkadot stash 1FRMM and the sample
Kusama stash F9VqN of messaging.js, with a decode oracle accepting
both. -/
theorem isValidAddressSpec_witness :
    isValidAddress (fun s => !(s == "bad")) Network.polkadot "bad" = false
    ∧ ((('1' : Char) = '1') →
        isValidAddress (fun s => !(s == "bad")) Network.polkadot "1FRMM" = true
        ∧ isValidAddress (fun s => !(s == "bad")) Network.kusama "1FRMM" = false)
    ∧ ((('1' : Char) ∈ kusamaFirstChars) →
        isValidAddress (fun s => !(s == "bad")) Network.kusama "1FRMM" = true
        ∧ isValidAddress (fun s => !(s == "bad")) Network.polkadot "1FRMM" = false) :=
  isValidAddressSpec (fun s => !(s == "bad")) Network.polkadot "bad" "1FRMM" '1'
    (by decide) (by decide) (by decide)

/-- C5: the subscription invariant of the store. First, when splicing a
chat id out of the chatIds of a validator leaves the list empty,
Data.removeValidator deletes the whole document, so the stash no longer
resolves in the collection. Second, adding a validator for a chat
through processAddRequest leaves the chat id exactly once in the
chatIds list: a repeated add hits the already added arm and changes
nothing, and a fresh add pushes the id exactly once, assuming the
stored list held the id at most once beforehand. -/
theorem subscriptionInvariant (validators : List Validator) (v : Validator)
    (chatId : Int) (l : List Int)
    (hempty : removeChatId v.chatIds chatId = [])
    (hcount : l.count chatId ≤ 1) :
    findValidator (removeValidatorStore validators v chatId) v.stashAddress = none
    ∧ (addChatId l chatId).count chatId = 1 := by
  constructor
  · simp only [removeValidatorStore, hempty, if_pos]
    rw [findValidator, List.find?_eq_none]
    intro x hx
    have hq := (List.mem_filter.mp hx).2
    simp only [Bool.not_eq_true'] at hq
    simp [hq]
  · unfold addChatId
    by_cases h : chatId ∈ l
    · have hpos : 0 < l.count chatId := List.count_pos_iff.mpr h
      have hcontains : l.contains chatId = true := by
        simpa [List.elem_iff] using h
      simp only [hcontains, if_pos]
      omega
    · have hz : l.count chatId = 0 := List.count_eq_zero.mpr h
      simp [h, List.count_append, hz, List.count_singleton_self]

/-- Witness for C5: removing chat 100 from the sample validator empties
its chat list and the document vanishes; adding chat 100 to the list
containing only chat 7 leaves exactly one occurrence. -/
theorem subscriptionInvariant_witness :
    findValidator (removeValidatorStore [sampleValidator] sampleValidator 100)
        sampleValidator.stashAddress = none
    ∧ (addChatId [7] 100).count 100 = 1 :=
  subscriptionInvariant [sampleValidator] sampleValidator 100 [7]
    (by decide) (by decide)

/-- C9: a pending block notification processed by a flush is deleted
exactly when the send produced a confirmed (non null) result; an
unconfirmed send (missing validator document, loosely zero block list,
transport error or blocked bot) leaves the record in the collection
unchanged for the next tick. Stated for both the forced per chat flush
and the periodic flush (the record belonging to the flushed chat, and
its chat having the flushed period, respectively). -/
theorem flushDeletesIffConfirmed (chats : List Chat) (validators : List Validator)
    (send : PendingNotification → Option Unit) (pending : List PendingNotification)
    (r : PendingNotification) (c : Int) (period : Int) (ch : Chat)
    (hr : r ∈ pending) (hc : r.chatId = c)
    (hch : findChat chats r.chatId = some ch)
    (hper : ch.blockNotificationPeriod = period) :
    (r ∉ sendPendingNotificationsForChat validators send pending c ↔
      notificationDelivered validators send r = true)
    ∧ (r ∉ sendPendingNotificationsPeriodic chats validators send period pending ↔
      notificationDelivered validators send r = true) := by
  constructor
  · rw [sendPendingNotificationsForChat]
    simp [List.mem_filter, hr, hc]
  · rw [sendPendingNotificationsPeriodic]
    simp [List.mem_filter, hr, hch, hper]

/-- Witness for C9 at the sample store: chat 100 with the hourly
period, the sample pending record and an always confirming send. -/
theorem flushDeletesIffConfirmed_witness :
    (samplePending ∉ sendPendingNotificationsForChat [sampleValidator]
        (fun _ => some ()) [samplePending] 100 ↔
      notificationDelivered [sampleValidator] (fun _ => some ()) samplePending = true)
    ∧ (samplePending ∉ sendPendingNotificationsPeriodic [sampleChat] [sampleValidator]
        (fun _ => some ()) PeriodHOURLY [samplePending] ↔
      notificationDelivered [sampleValidator] (fun _ => some ()) samplePending = true) :=
  flushDeletesIffConfirmed [sampleChat] [sampleValidator] (fun _ => some ())
    [samplePending] samplePending 100 PeriodHOURLY sampleChat
    (by decide) (by decide) (by decide) (by decide)

/-- The fetched candidate equal to the sample validator in every field
except a rank drop from 5 to 3. -/
def sampleRankDropCandidate : OneKVCandidate := { sampleCandidate with rank := 3 }

/-- C1 counterexample: for the update cycle where only the rank changed
and it decreased numerically from 5 to 3, the emitted component is the
chart down rank has decreased event, not the chart up rank has
increased event: the claim places the improvement event (chart up, the
presentation the code uses for good news) at a numeric decrease, but
the code presents a numeric decrease as the decline event, because in
the 1KV programme a higher rank number is better. -/
theorem rankDropEmitsDecreaseEvent :
    messageComponents sampleValidator sampleRankDropCandidate
        = [MsgComponent.rankDown 5 3]
    ∧ MsgComponent.rankUp 5 3 ∉
        messageComponents sampleValidator sampleRankDropCandidate := by
  decide

/-- C1 amended: for every update cycle where the stored snapshot and
the fetched candidate differ only in rank, exactly one rank event
fires: the chart up rank has increased (improvement) component when the
rank increased numerically, the chart down rank has decreased
(worsening) component when it decreased numerically - never both,
never neither - and at least one rank history entry is appended. -/
theorem rankDiffExactlyOneEvent (v : Validator) (w : OneKVCandidate)
    (rankHistoryCount : Nat)
    (hname : v.name = w.name) (hctrl : v.controllerAddress = w.controllerAddress)
    (hvalid : v.isValid = w.isValid) (hitems : v.validityItems = w.validityItems)
    (hreasons : v.invalidityReasons = w.invalidityReasons)
    (honline : v.onlineSince = w.onlineSince)
    (hoffline : v.offlineSince = w.offlineSince)
    (hacc : v.offlineAccumulated = w.offlineAccumulated)
    (hactive : v.isActiveInSet = w.isActiveInSet)
    (hcomm : v.commission = w.commission) (hkeys : v.sessionKeys = w.sessionKeys)
    (hloc : v.location = w.location) (hver : v.version = w.version)
    (hrank : v.rank ≠ w.rank) :
    messageComponents v w =
      (if v.rank < w.rank then [MsgComponent.rankUp v.rank w.rank]
       else [MsgComponent.rankDown v.rank w.rank])
    ∧ rankSaves v w rankHistoryCount ≠ [] := by
  have hoff1 : ¬(v.offlineSince = 0 ∧ w.offlineSince > 0) := by
    rw [hoffline]; omega
  have hoff2 : ¬(v.offlineSince > 0 ∧ w.offlineSince = 0) := by
    rw [hoffline]; omega
  constructor
  · rw [messageComponents, hname, hctrl, hvalid, hactive, hcomm, hkeys, hloc]
    simp only [ne_eq, not_true_eq_false, if_false, ite_self, Bool.and_not_self,
      Bool.not_and_self, List.append_nil, List.nil_append, if_neg hoff1, if_neg hoff2]
    rcases lt_or_gt_of_ne hrank with h | h
    · simp [h]
    · simp [h, lt_asymm h]
  · rw [rankSaves]
    rcases lt_or_gt_of_ne hrank with h | h
    · simp [h]
    · simp [h, lt_asymm h]

/-- Witness for the amended C1 at the sample rank drop: the single
emitted component is the rank has decreased event and the history
gained an entry. -/
theorem rankDiffExactlyOneEvent_witness :
    messageComponents sampleValidator sampleRankDropCandidate =
      (if sampleValidator.rank < sampleRankDropCandidate.rank then
        [MsgComponent.rankUp sampleValidator.rank sampleRankDropCandidate.rank]
       else [MsgComponent.rankDown sampleValidator.rank sampleRankDropCandidate.rank])
    ∧ rankSaves sampleValidator sampleRankDropCandidate 3 ≠ [] :=
  rankDiffExactlyOneEvent sampleValidator sampleRankDropCandidate 3
    rfl rfl rfl rfl rfl rfl rfl rfl rfl rfl rfl rfl rfl (by decide)

/-- The outbound chat messages sent at the end of one updateValidator
cycle (telegram-bot.js lines 1079-1092): when at least one component
was pushed and the database update succeeded, one message per
subscribing chat id is sent, carrying the concatenated components in a
single message; otherwise nothing is sent. -/
def updateMessagesSent (dbOk : Bool) (v : Validator) (w : OneKVCandidate) :
    List (Int × List MsgComponent) :=
  if dbOk && !(messageComponents v w).isEmpty then
    v.chatIds.map (fun cid => (cid, messageComponents v w))
  else []

/-- Comparing a stored validator against a fetched candidate carrying
exactly its own current fields produces no message component and
triggers no forced flush, leaving the pending collection untouched. -/
theorem selfDiffQuiet (u : Validator) (validators : List Validator)
    (send : PendingNotification → Option Unit)
    (pending : List PendingNotification) :
    messageComponents u u.toOneKVCandidate = []
    ∧ updatePendingAfterDiff validators send u u.toOneKVCandidate pending = pending := by
  have hoff1 : ¬(u.offlineSince = 0 ∧ u.offlineSince > 0) := by omega
  have hoff2 : ¬(u.offlineSince > 0 ∧ u.offlineSince = 0) := by omega
  have hof : offlineFlushTriggered u u.toOneKVCandidate = false := by
    unfold offlineFlushTriggered
    by_cases h0 : u.offlineSince = 0
    · simp [h0]
    · simp [h0]
  constructor
  · rw [messageComponents]
    simp [hoff1, hoff2]
  · rw [updatePendingAfterDiff]
    simp [invalidityFlushTriggered, leftActiveFlushTriggered, hof]

/-- C3: the differ is idempotent. After one updateValidator cycle
persisted its result through the field wise set of Data.updateValidator,
a second cycle whose freshly fetched candidate equals that persisted
snapshot emits no message component at all (so no message is sent to
any subscribing chat) and performs no forced flush of the pending
collection. -/
theorem differIdempotent (v : Validator) (w w2 : OneKVCandidate)
    (validators : List Validator) (send : PendingNotification → Option Unit)
    (pending : List PendingNotification)
    (h : w2 = (persistedValidator v w).toOneKVCandidate) :
    messageComponents (persistedValidator v w) w2 = []
    ∧ (∀ dbOk, updateMessagesSent dbOk (persistedValidator v w) w2 = [])
    ∧ updatePendingAfterDiff validators send (persistedValidator v w) w2 pending = pending := by
  subst h
  have hq := selfDiffQuiet (persistedValidator v w) validators send pending
  refine ⟨hq.1, ?_, hq.2⟩
  intro dbOk
  rw [updateMessagesSent, hq.1]
  simp

/-- Witness for C3 at the sample rank drop cycle. -/
theorem differIdempotent_witness :
    messageComponents (persistedValidator sampleValidator sampleRankDropCandidate)
        (persistedValidator sampleValidator sampleRankDropCandidate).toOneKVCandidate = []
    ∧ (∀ dbOk, updateMessagesSent dbOk
        (persistedValidator sampleValidator sampleRankDropCandidate)
        (persistedValidator sampleValidator sampleRankDropCandidate).toOneKVCandidate = [])
    ∧ updatePendingAfterDiff [sampleValidator] (fun _ => some ())
        (persistedValidator sampleValidator sampleRankDropCandidate)
        (persistedValidator sampleValidator sampleRankDropCandidate).toOneKVCandidate
        [samplePending] = [samplePending] :=
  differIdempotent sampleValidator sampleRankDropCandidate _ [sampleValidator]
    (fun _ => some ()) [samplePending] rfl

/-- A record survives the per chat flush exactly when it was present
and is not a delivered record of the flushed chat. -/
theorem mem_sendPendingForChat (validators : List Validator)
    (send : PendingNotification → Option Unit)
    (pending : List PendingNotification) (c : Int) (r : PendingNotification) :
    r ∈ sendPendingNotificationsForChat validators send pending c ↔
      r ∈ pending ∧ ¬(r.chatId = c ∧ notificationDelivered validators send r = true) := by
  rw [sendPendingNotificationsForChat]
  constructor
  · intro h
    obtain ⟨h1, h2⟩ := List.mem_filter.mp h
    refine ⟨h1, ?_⟩
    rintro ⟨hc, hd⟩
    rw [hc, hd] at h2
    simp at h2
  · rintro ⟨h1, h2⟩
    refine List.mem_filter.mpr ⟨h1, ?_⟩
    by_cases hc : r.chatId = c
    · have hd : notificationDelivered validators send r = false := by
        rcases Bool.eq_false_or_eq_true (notificationDelivered validators send r) with h | h
        · exact absurd ⟨hc, h⟩ h2
        · exact h
      simp [hc, hd]
    · simp [hc]

/-- A record survives the forced flush loop over a chat id list exactly
when it was present and is, for every flushed chat, not a delivered
record of that chat. -/
theorem mem_flushChatsPending (validators : List Validator)
    (send : PendingNotification → Option Unit) (cs : List Int)
    (pending : List PendingNotification) (r : PendingNotification) :
    r ∈ flushChatsPending validators send cs pending ↔
      r ∈ pending ∧ ∀ c ∈ cs,
        ¬(r.chatId = c ∧ notificationDelivered validators send r = true) := by
  induction cs generalizing pending with
  | nil => simp [flushChatsPending]
  | cons c cs ih =>
    have hstep : flushChatsPending validators send (c :: cs) pending =
        flushChatsPending validators send cs
          (sendPendingNotificationsForChat validators send pending c) := rfl
    rw [hstep, ih, mem_sendPendingForChat]
    constructor
    · rintro ⟨⟨h1, h2⟩, h3⟩
      refine ⟨h1, ?_⟩
      intro c1 hc1
      rcases List.mem_cons.mp hc1 with rfl | hmem
      · exact h2
      · exact h3 c1 hmem
    · rintro ⟨h1, h2⟩
      exact ⟨⟨h1, h2 c (List.mem_cons_self c cs)⟩,
        fun c1 hc1 => h2 c1 (List.mem_cons_of_mem c hc1)⟩

/-- The forced flush loop only ever deletes records. -/
theorem mem_of_mem_flushChatsPending (validators : List Validator)
    (send : PendingNotification → Option Unit) (cs : List Int)
    (pending : List PendingNotification) (r : PendingNotification)
    (h : r ∈ flushChatsPending validators send cs pending) : r ∈ pending :=
  ((mem_flushChatsPending validators send cs pending r).mp h).1

/-- When every pending record of the flushed chats is deliverable, the
forced flush loop leaves no record of those chats behind. -/
theorem flushChatsPending_clears (validators : List Validator)
    (send : PendingNotification → Option Unit) (cs : List Int)
    (pending : List PendingNotification)
    (hdel : ∀ r ∈ pending, r.chatId ∈ cs →
      notificationDelivered validators send r = true) :
    ∀ r ∈ flushChatsPending validators send cs pending, r.chatId ∉ cs := by
  intro r hr hmem
  obtain ⟨hp, hall⟩ := (mem_flushChatsPending validators send cs pending r).mp hr
  exact hall r.chatId hmem ⟨rfl, hdel r hp hmem⟩

/-- A stored validator identical to the sample one but outside the
active set. -/
def sampleEnterActiveOld : Validator := { sampleValidator with isActiveInSet := false }

/-- C2 counterexample: in the cycle where the only transition is
active in set going from false to true (the validator entered the
active set), the pending collection is left completely untouched, even
though a pending record of a subscribing chat exists, the validator
document resolves, and the send would have been confirmed: none of the
three forced flush sites covers the entering transition, so the claim
fails for the false to true case it includes. -/
theorem enteringActiveSetDoesNotFlush :
    updatePendingAfterDiff [sampleValidator] (fun _ => some ())
        sampleEnterActiveOld sampleCandidate [samplePending] = [samplePending]
    ∧ sampleEnterActiveOld.isActiveInSet = false
    ∧ sampleCandidate.isActiveInSet = true
    ∧ samplePending.chatId ∈ sampleEnterActiveOld.chatIds
    ∧ notificationDelivered [sampleValidator] (fun _ => some ()) samplePending = true := by
  decide

/-- C2 amended: whenever the cycle observes one of the three flushing
transitions - the validator became invalid, went offline (offline
since moving from zero to positive), or left the active set (true to
false; entering it does not flush) - and every pending record of the
subscribing chats is deliverable (its stash resolves, its block list is
not loosely zero and its send is confirmed), then by the end of the
cycle no pending record of any subscribing chat remains, independent of
each chat block notification period. -/
theorem forcedFlushOnTransitions (validators : List Validator)
    (send : PendingNotification → Option Unit) (v : Validator) (w : OneKVCandidate)
    (pending : List PendingNotification)
    (htrig : invalidityFlushTriggered v w = true ∨ offlineFlushTriggered v w = true
      ∨ leftActiveFlushTriggered v w = true)
    (hdel : ∀ r ∈ pending, r.chatId ∈ v.chatIds →
      notificationDelivered validators send r = true) :
    ∀ r ∈ updatePendingAfterDiff validators send v w pending,
      r.chatId ∉ v.chatIds := by
  rcases Bool.eq_false_or_eq_true (invalidityFlushTriggered v w) with h1 | h1 <;>
  rcases Bool.eq_false_or_eq_true (offlineFlushTriggered v w) with h2 | h2 <;>
  rcases Bool.eq_false_or_eq_true (leftActiveFlushTriggered v w) with h3 | h3 <;>
    simp only [updatePendingAfterDiff, h1, h2, h3, if_true, Bool.false_eq_true,
      if_false]
  · exact flushChatsPending_clears validators send v.chatIds _
      (fun r hr hm => hdel r (mem_of_mem_flushChatsPending _ _ _ _ r
        (mem_of_mem_flushChatsPending _ _ _ _ r hr)) hm)
  · exact flushChatsPending_clears validators send v.chatIds _
      (fun r hr hm => hdel r (mem_of_mem_flushChatsPending _ _ _ _ r hr) hm)
  · exact flushChatsPending_clears validators send v.chatIds _
      (fun r hr hm => hdel r (mem_of_mem_flushChatsPending _ _ _ _ r hr) hm)
  · exact flushChatsPending_clears validators send v.chatIds pending hdel
  · exact flushChatsPending_clears validators send v.chatIds _
      (fun r hr hm => hdel r (mem_of_mem_flushChatsPending _ _ _ _ r hr) hm)
  · exact flushChatsPending_clears validators send v.chatIds pending hdel
  · exact flushChatsPending_clears validators send v.chatIds pending hdel
  · rcases htrig with h | h | h <;> simp_all

/-- The fetched candidate equal to the sample validator in every field
except that it left the active set. -/
def sampleLeftActiveCandidate : OneKVCandidate :=
  { sampleCandidate with isActiveInSet := false }

/-- Witness for the amended C2: the sample validator leaves the active
set and its chat 100 pending record is flushed, emptying the pending
collection. -/
theorem forcedFlushOnTransitions_witness :
    updatePendingAfterDiff [sampleValidator] (fun _ => some ())
        sampleValidator sampleLeftActiveCandidate [samplePending] = [] := by
  have hclr := forcedFlushOnTransitions [sampleValidator] (fun _ => some ())
    sampleValidator sampleLeftActiveCandidate [samplePending]
    (Or.inr (Or.inr (by decide))) (by decide)
  decide

/-- Filtering after mapping a function that fixes every element kept by
the filter and never changes whether an element is kept gives the same
result as filtering directly. -/
theorem filter_map_of_invariant {α : Type} (p : α → Bool) (f : α → α) (l : List α)
    (hf : ∀ x, p x = true → f x = x) (hp : ∀ x, p (f x) = p x) :
    (l.map f).filter p = l.filter p := by
  induction l with
  | nil => rfl
  | cons a t ih =>
    rw [List.map_cons, List.filter_cons, List.filter_cons, hp a]
    by_cases h : p a = true
    · rw [hf a h]
      simp [h, ih]
    · simp [h, ih]

/-- Saving a pending block notification for one chat leaves the records
of every other chat untouched. -/
theorem savePending_filter_other_chat (pending : List PendingNotification)
    (cid1 : Int) (stash : String) (b : Int) (cid : Int) (h : cid1 ≠ cid) :
    (savePendingBlockNotification pending cid1 stash b).filter
        (fun n => n.chatId == cid)
      = pending.filter (fun n => n.chatId == cid) := by
  rw [savePendingBlockNotification]
  cases hfind : pending.find?
      (fun n => n.chatId == cid1 && n.stashAddress == stash) with
  | none =>
    rw [List.filter_append]
    simp [h]
  | some n0 =>
    apply filter_map_of_invariant
    · intro x hx
      have hxc : x.chatId = cid := by simpa using hx
      have hcb : (x.chatId == cid1) = false := by
        simp [hxc]
        omega
      simp [hcb]
    · intro x
      by_cases hcond : (x.chatId == cid1 && x.stashAddress == stash) = true
      · simp [hcond]
      · simp [hcond]

/-- One iteration of the chat loop never touches the records of a chat
whose block notification period is OFF. -/
theorem blockStep_off_chat_preserved (chats : List Chat) (b : Int) (stash : String)
    (cid : Int) (cOff : Chat) (hfind : findChat chats cid = some cOff)
    (hoff : cOff.blockNotificationPeriod = PeriodOFF)
    (p : List PendingNotification) (cid1 : Int) :
    (blockNotificationStep chats b stash p cid1).filter (fun n => n.chatId == cid)
      = p.filter (fun n => n.chatId == cid) := by
  rw [blockNotificationStep]
  cases hc : findChat chats cid1 with
  | none => rfl
  | some c =>
    have hcc : c.chatId = cid1 := by
      have hx := List.find?_some hc
      simpa using hx
    by_cases him : (c.blockNotificationPeriod == PeriodIMMEDIATE) = true
    · simp [him]
    · by_cases hnotoff : (c.blockNotificationPeriod != PeriodOFF) = true
      · have hne : c.chatId ≠ cid := by
          intro he
          have hcid : cid1 = cid := by rw [← hcc, he]
          rw [hcid, hfind] at hc
          have hceq : cOff = c := Option.some.inj hc
          rw [← hceq, hoff] at hnotoff
          simp at hnotoff
        simp only [Bool.not_eq_true] at him
        simp only [him, hnotoff, if_true, Bool.false_eq_true, if_false]
        exact savePending_filter_other_chat p c.chatId stash b cid hne
      · simp [him, hnotoff]

/-- processNewBlockByValidator never touches the records of a chat
whose block notification period is OFF. -/
theorem processNewBlock_off_chat_unchanged (chats : List Chat) (b : Int)
    (v : Validator) (pending : List PendingNotification) (cid : Int) (cOff : Chat)
    (hfind : findChat chats cid = some cOff)
    (hoff : cOff.blockNotificationPeriod = PeriodOFF) :
    (processNewBlockByValidator chats b v pending).filter (fun n => n.chatId == cid)
      = pending.filter (fun n => n.chatId == cid) := by
  rw [processNewBlockByValidator]
  generalize v.chatIds = ids
  induction ids generalizing pending with
  | nil => rfl
  | cons i t ih =>
    rw [List.foldl_cons, ih,
      blockStep_off_chat_preserved chats b v.stashAddress cid cOff hfind hoff pending i]

/-- A chat like the sample one whose block notification period is
OFF. -/
def sampleOffChat : Chat := { sampleChat with blockNotificationPeriod := PeriodOFF }

/-- C4: for a chat whose block notification period is OFF, processing
an authored block never creates (or changes) any pending record of
that chat; and the settings callback that sets the period of a chat to
OFF (reaching the block period arm with a matching settings message id
and a successful database write) runs
deletePendingBlockNotificationsForChat, so that afterwards no pending
record of that chat exists at all. -/
theorem blockPeriodOffInvariant (chats : List Chat) (b : Int) (v : Validator)
    (pending : List PendingNotification) (cid : Int) (cOff : Chat)
    (eraLengthMins : Int) (validators : List Validator)
    (send : PendingNotification → Option Unit) (q : CallbackQuery) (chat : Chat)
    (pending2 : List PendingNotification)
    (hfind : findChat chats cid = some cOff)
    (hoff : cOff.blockNotificationPeriod = PeriodOFF)
    (hq : q.messageId = chat.lastSettingsMessageId)
    (hclose : q.data.closeSettings = false)
    (hback : q.data.backToSettingsMenu = false)
    (hmenu : q.data.goToSubMenu = none)
    (hnom : q.data.sendNewNominationNotifications = none)
    (hchill : q.data.sendChillingEventNotifications = none)
    (hoffl : q.data.sendOfflineEventNotifications = none)
    (hper : q.data.blockNotificationPeriod = some PeriodOFF) :
    (processNewBlockByValidator chats b v pending).filter (fun n => n.chatId == cid)
      = pending.filter (fun n => n.chatId == cid)
    ∧ (processCallbackQuery eraLengthMins true validators send q chat pending2).pending
      = deletePendingBlockNotificationsForChat pending2 chat.chatId
    ∧ ∀ r ∈ (processCallbackQuery eraLengthMins true validators send q chat
        pending2).pending, r.chatId ≠ chat.chatId := by
  have hcb : (processCallbackQuery eraLengthMins true validators send q chat
      pending2).pending = deletePendingBlockNotificationsForChat pending2 chat.chatId := by
    rw [processCallbackQuery]
    simp [hq, hclose, hback, hmenu, hnom, hchill, hoffl, hper, validBlockPeriod,
      PeriodOFF, PeriodIMMEDIATE, PeriodHOURLY]
  refine ⟨processNewBlock_off_chat_unchanged chats b v pending cid cOff hfind hoff,
    hcb, ?_⟩
  rw [hcb]
  intro r hr
  have hx := (List.mem_filter.mp hr).2
  simp only [Bool.not_eq_true'] at hx
  simpa using hx

/-- Witness for C4 at the sample data: chat 100 with the OFF period,
the sample validator authoring block 77, and the sample OFF callback
payload. -/
theorem blockPeriodOffInvariant_witness :
    (processNewBlockByValidator [sampleOffChat] 77 sampleValidator
        [samplePending]).filter (fun n => n.chatId == 100)
      = [samplePending].filter (fun n => n.chatId == 100)
    ∧ (processCallbackQuery 360 true [sampleValidator] (fun _ => some ())
        ⟨41, samplePeriodData⟩ sampleChat [samplePending]).pending
      = deletePendingBlockNotificationsForChat [samplePending] sampleChat.chatId
    ∧ ∀ r ∈ (processCallbackQuery 360 true [sampleValidator] (fun _ => some ())
        ⟨41, samplePeriodData⟩ sampleChat [samplePending]).pending,
        r.chatId ≠ sampleChat.chatId :=
  blockPeriodOffInvariant [sampleOffChat] 77 sampleValidator [samplePending] 100
    sampleOffChat 360 [sampleValidator] (fun _ => some ()) ⟨41, samplePeriodData⟩
    sampleChat [samplePending] (by decide) (by decide) (by decide) (by decide)
    (by decide) (by decide) (by decide) (by decide) (by decide) (by decide)

/-- A family of sample validators all watched by chat 100, used to fill
the per chat cap. -/
def capFiller (i : Nat) : Validator :=
  { toOneKVCandidate := sampleCandidate, stashAddress := "S" ++ toString i,
    chatIds := [100] }

/-- A sample validator watched only by chat 200. -/
def sampleCapTarget : Validator :=
  { toOneKVCandidate := sampleCandidate, stashAddress := "T", chatIds := [200] }

/-- A store in which chat 100 watches exactly twenty validators and one
further validator is watched only by chat 200. -/
def capStore : List Validator :=
  ((List.range maxValidatorsPerChat).map capFiller) ++ [sampleCapTarget]

/-- C7 counterexample: chat 100 already watches the maximum of twenty
validators, yet the slash add command carrying a valid address goes
through the direct arm of the dispatcher, which calls processAddRequest
with no cap check at all, and the target validator gains chat 100: the
attempt is not rejected. -/
theorem addCapBypassedOnDirectPath :
    (validatorsForChat capStore 100).length = maxValidatorsPerChat
    ∧ (handleAddCommand (fun _ => true) (fun _ => FetchResult.failed) capStore 100
        ["/add", "T"]).2.1 ≠ capStore
    ∧ findValidator ((handleAddCommand (fun _ => true) (fun _ => FetchResult.failed)
        capStore 100 ["/add", "T"]).2.1) "T"
      = some { sampleCapTarget with chatIds := [200, 100] } := by
  decide

/-- C7 amended: the per chat cap of twenty validators is enforced on
the prompt path only: a chat at (or above) the cap issuing a bare slash
add, or one whose second token fails address validation, is rejected
with the cap message, the validator collection is untouched and the
state goes IDLE. The direct path with a valid second token bypasses the
cap. -/
theorem addCapPromptPath (validAddr : String → Bool) (fetch : String → FetchResult)
    (validators : List Validator) (chatId : Int) (tokens : List String)
    (hcap : (validatorsForChat validators chatId).length ≥ maxValidatorsPerChat)
    (hprompt : (tokens.length = 1 ∧ tokens.headD "" = "/add")
      ∨ (tokens.length > 1 ∧ validAddr (tokens.getD 1 "") = false)) :
    handleAddCommand validAddr fetch validators chatId tokens =
      (AddCommandOutcome.promptRejectedMax, validators, some ChatState.IDLE) := by
  rw [handleAddCommand]
  have hcond : (tokens.length = 1 ∧ tokens.headD "" = "/add")
      ∨ (tokens.length > 1 ∧ (!validAddr (tokens.getD 1 "")) = true) := by
    rcases hprompt with ⟨h1, h2⟩ | ⟨h1, h2⟩
    · exact Or.inl ⟨h1, h2⟩
    · exact Or.inr ⟨h1, by rw [Bool.not_eq_true']; exact h2⟩
  rw [if_pos hcond, if_pos hcap]

/-- Witness for the amended C7: chat 100 at the cap issues a bare slash
add and is rejected. -/
theorem addCapPromptPath_witness :
    handleAddCommand (fun _ => true) (fun _ => FetchResult.failed) capStore 100
        ["/add"] =
      (AddCommandOutcome.promptRejectedMax, capStore, some ChatState.IDLE) :=
  addCapPromptPath (fun _ => true) (fun _ => FetchResult.failed) capStore 100
    ["/add"] (by decide) (Or.inl (by decide))

/-- The setChatState effect of processAddRequest is either an IDLE
transition (exactly on the three outcomes that add a validator or hit
the unexpected error arm) or absent. -/
theorem processAddRequest_stateSet_cases (validAddr : String → Bool)
    (fetch : String → FetchResult) (validators : List Validator)
    (stash : String) (chatId : Int) :
    ((processAddRequest validAddr fetch validators stash chatId).stateSet
        = some ChatState.IDLE
      ↔ ((processAddRequest validAddr fetch validators stash chatId).outcome
            = AddOutcome.addedToExisting
        ∨ (processAddRequest validAddr fetch validators stash chatId).outcome
            = AddOutcome.fetchPersisted
        ∨ (processAddRequest validAddr fetch validators stash chatId).outcome
            = AddOutcome.fetchFailed))
    ∧ ((processAddRequest validAddr fetch validators stash chatId).stateSet
          = some ChatState.IDLE
      ∨ (processAddRequest validAddr fetch validators stash chatId).stateSet
          = none) := by
  unfold processAddRequest
  split
  · simp
  · split
    · split
      · simp
      · simp
    · split <;> simp

/-- C8 counterexample: a chat in the ADD state sending a message that
fails address validation is answered with the try again message and the
conversation state stays ADD - processAddRequest returns without
touching the state - so one handled follow up error does not return the
chat to IDLE. -/
theorem invalidAddressStaysInAdd :
    dispatchFreeText (fun _ => false) (fun _ => FetchResult.failed) [] 1 "oops"
        ChatState.ADD = ChatState.ADD
    ∧ ChatState.ADD ≠ ChatState.IDLE := by
  decide

/-- C8 amended: after the dispatcher handles one free text follow up,
the chats in REMOVE, VALIDATOR_INFO and STAKING_INFO_SELECT_VALIDATOR
always end in IDLE (on success and on the not found error alike); a
chat in ADD ends in IDLE exactly when the add succeeded (the chat was
pushed onto an existing validator or a fresh document was persisted) or
the fetch hit the unexpected error arm - on an invalid address, an
already added validator, or a not found or skipped fetch it stays in
ADD. -/
theorem followUpReturnsToIdle (validAddr : String → Bool)
    (fetch : String → FetchResult) (validators : List Validator) (chatId : Int)
    (text : String) (state : ChatState)
    (hstate : state = ChatState.REMOVE ∨ state = ChatState.VALIDATOR_INFO
      ∨ state = ChatState.STAKING_INFO_SELECT_VALIDATOR) :
    dispatchFreeText validAddr fetch validators chatId text state = ChatState.IDLE
    ∧ (dispatchFreeText validAddr fetch validators chatId text ChatState.ADD
        = ChatState.IDLE ↔
      ((processAddRequest validAddr fetch validators text chatId).outcome
          = AddOutcome.addedToExisting
        ∨ (processAddRequest validAddr fetch validators text chatId).outcome
          = AddOutcome.fetchPersisted
        ∨ (processAddRequest validAddr fetch validators text chatId).outcome
          = AddOutcome.fetchFailed)) := by
  have hcase := processAddRequest_stateSet_cases validAddr fetch validators text chatId
  constructor
  · rcases hstate with h | h | h <;> subst h <;> rfl
  · show ((processAddRequest validAddr fetch validators text chatId).stateSet).getD
        ChatState.ADD = ChatState.IDLE ↔ _
    rcases hcase.2 with h | h
    · rw [h]
      simp only [Option.getD_some]
      constructor
      · intro _
        exact hcase.1.mp h
      · intro _
        trivial
    · rw [h]
      simp only [Option.getD_none]
      constructor
      · intro hbad
        exact absurd hbad (by decide)
      · intro hout
        have hsome := hcase.1.mpr hout
        rw [h] at hsome
        cases hsome

/-- Witness for the amended C8: a chat in REMOVE ends in IDLE, and a
chat in ADD whose follow up fails address validation does not. -/
theorem followUpReturnsToIdle_witness :
    dispatchFreeText (fun _ => false) (fun _ => FetchResult.failed) [] 1 "oops"
        ChatState.REMOVE = ChatState.IDLE
    ∧ (dispatchFreeText (fun _ => false) (fun _ => FetchResult.failed) [] 1 "oops"
        ChatState.ADD = ChatState.IDLE ↔
      ((processAddRequest (fun _ => false) (fun _ => FetchResult.failed) [] "oops"
          1).outcome = AddOutcome.addedToExisting
        ∨ (processAddRequest (fun _ => false) (fun _ => FetchResult.failed) [] "oops"
          1).outcome = AddOutcome.fetchPersisted
        ∨ (processAddRequest (fun _ => false) (fun _ => FetchResult.failed) [] "oops"
          1).outcome = AddOutcome.fetchFailed)) :=
  followUpReturnsToIdle (fun _ => false) (fun _ => FetchResult.failed) [] 1 "oops"
    ChatState.REMOVE (Or.inl rfl)

end OneKV
